import Mathlib

/-!
Shallow embedding of the NeSY-Imitation-Learning scene-graph extraction
engine (src/core/game_object.py, src/core/object_detector.py,
src/core/relationship_analyzer.py, src/core/gaze_data_processor.py and the
Seaquest variants under src/env/seaquest/).

Modelling conventions:
* Python ints are `Int`; Python floats arising from exact decimal literals
  and exact divisions are modelled as `ℚ` (the geometric thresholds and
  coverage ratios in the source only ever compare small rationals).
* Python `//` (floor division) is `Int.fdiv`.
* Python object identity: every `GameObject` allocation draws a fresh
  address from an explicitly threaded `Nat` counter, standing for CPython
  `id(self)`.  Distinct simultaneously-live objects have distinct
  addresses, which is the only property of `id` the source relies on.
  The address is stored in the `addr` field, so structural equality of the
  embedded structure coincides with Python `==` (default identity
  equality, since the source defines no `__eq__`).
* `SpatialRelationship.distance` in the source is the Euclidean distance
  between centers; the embedding stores its square (`distance_sq : Int`).
  The square root is injective on nonnegative reals, so equality and
  determinism statements are unaffected.
* The external region finder `find_objects(image, colors, params)` (out of
  scope per the spec) is a pure function of the image and the per-type
  colour/parameter configuration; a frame is therefore embedded as
  `Image := String → List Box`, mapping each colour/parameter query the
  detectors make to the returned candidate boxes.
-/

/-- A raw bounding box `(x, y, width, height)` as returned by the region
finder. -/
def Box : Type := Int × Int × Int × Int

instance : DecidableEq Box := by
  unfold Box
  infer_instance

/-- Model of `GameObject` from src/core/game_object.py: type, box fields, optional
facing side, object id, plus the allocation address modelling `id(self)`. -/
structure GameObject where
  object_type : String
  x : Int
  y : Int
  width : Int
  height : Int
  facing_side : Option String
  object_id : String
  addr : Nat
deriving DecidableEq

/-- Model of `GameObject.__init__`: unpacks the bounding box and computes
`object_id = object_id or f"{object_type}_{id(self)}"`.  Python `or`
falls through both on `None` and on the empty string. -/
def mkGameObject (object_type : String) (bb : Box) (facing_side : Option String)
    (object_id : Option String) (addr : Nat) : GameObject :=
  let defaultId := object_type ++ "_" ++ toString addr
  { object_type := object_type
    x := bb.1
    y := bb.2.1
    width := bb.2.2.1
    height := bb.2.2.2
    facing_side := facing_side
    object_id := match object_id with
      | some s => if s = "" then defaultId else s
      | none => defaultId
    addr := addr }

/-- The `bounding_box` property. -/
def GameObject.bounding_box (o : GameObject) : Box :=
  (o.x, o.y, o.width, o.height)

/-- The `left` property. -/
def GameObject.left (o : GameObject) : Int := o.x

/-- The `right` property. -/
def GameObject.right (o : GameObject) : Int := o.x + o.width

/-- The `top` property. -/
def GameObject.top (o : GameObject) : Int := o.y

/-- The `bottom` property. -/
def GameObject.bottom (o : GameObject) : Int := o.y + o.height

/-- The `center` property: `(x + width // 2, y + height // 2)`. -/
def GameObject.center (o : GameObject) : Int × Int :=
  (o.x + Int.fdiv o.width 2, o.y + Int.fdiv o.height 2)

/-- Model of `MIN_COVERAGE_RATIO = 0.51` from src/core/config.py, the default of the
`min_coverage` parameter of the vertical predicates. -/
def min_coverage : ℚ := 51 / 100

/-- Model of `above_reference_level(obj, reference_y)`: `obj.y < reference_y`. -/
def above_reference_level (obj : GameObject) (reference_y : Int) : Bool :=
  obj.y < reference_y

/-- Model of `right_of(obj1, obj2)`: `obj2.right <= obj1.left`. -/
def right_of (obj1 obj2 : GameObject) : Bool :=
  obj2.right ≤ obj1.left

/-- Model of `left_of(obj1, obj2)`: `obj1.right <= obj2.left`. -/
def left_of (obj1 obj2 : GameObject) : Bool :=
  obj1.right ≤ obj2.left

/-- The shared vertical-overlap amount
`max(0, min(obj1.bottom, obj2.bottom) - max(obj1.top, obj2.top))`. -/
def coverage (obj1 obj2 : GameObject) : Int :=
  max 0 (min obj1.bottom obj2.bottom - max obj1.top obj2.top)

/-- Computes `coverage / obj2.height if obj2.height > 0 else 0`. -/
def coverage_ratio (obj1 obj2 : GameObject) : ℚ :=
  if obj2.height > 0 then (coverage obj1 obj2 : ℚ) / (obj2.height : ℚ) else 0

/-- Computes `mid_y1 = obj1.y + obj1.height // 2` as used by the vertical
predicates. -/
def mid_y (obj : GameObject) : Int :=
  obj.y + Int.fdiv obj.height 2

/-- Model of `above_of(obj1, obj2, min_coverage)`. -/
def above_of (obj1 obj2 : GameObject) : Bool :=
  mid_y obj1 < obj2.top ∧ coverage_ratio obj1 obj2 < min_coverage

/-- Model of `below_of(obj1, obj2, min_coverage)`. -/
def below_of (obj1 obj2 : GameObject) : Bool :=
  mid_y obj1 > obj2.bottom ∧ coverage_ratio obj1 obj2 < min_coverage

/-- Model of `same_level_of(obj1, obj2, min_coverage)`. -/
def same_level_of (obj1 obj2 : GameObject) : Bool :=
  (obj2.top ≤ mid_y obj1 ∧ mid_y obj1 ≤ obj2.bottom) ∧
    coverage_ratio obj1 obj2 ≥ min_coverage

/-- Model of `SpatialRelationship` from src/core/game_object.py.  `distance_sq` is
the square of the stored Euclidean `distance` (see module comment). -/
structure SpatialRelationship where
  obj1 : GameObject
  obj2 : GameObject
  relationship_type : String
  distance_sq : Int
deriving DecidableEq

/-- Model of `SpatialRelationship.__init__` including `_calculate_distance`
(squared, see module comment). -/
def mkRel (obj1 obj2 : GameObject) (relationship_type : String) :
    SpatialRelationship :=
  { obj1 := obj1
    obj2 := obj2
    relationship_type := relationship_type
    distance_sq :=
      (obj1.center.1 - obj2.center.1) ^ 2 + (obj1.center.2 - obj2.center.2) ^ 2 }

/-! ## String helpers used by the analyzer (models of Python `str` methods) -/

/-- Model of Python `str.lower` for the ASCII strings the engine uses. -/
def pyLower (s : String) : String :=
  String.mk (s.toList.map Char.toLower)

/-- Substring test on character lists: some suffix of `hay` starts with
`needle` (model of Python `in` on strings). -/
def subListOf (needle hay : List Char) : Bool :=
  hay.tails.any (fun t => needle.isPrefixOf t)

/-- Model of Python `needle in hay` for strings. -/
def pyInStr (needle hay : String) : Bool :=
  subListOf needle.toList hay.toList

/-- Model of Python `str.capitalize`: first character upper-cased, the rest
lower-cased (ASCII). -/
def pyCapitalize (s : String) : String :=
  match s.toList with
  | [] => ""
  | c :: cs => String.mk (Char.toUpper c :: cs.map Char.toLower)

/-! ## Relationship analyzer (src/core/relationship_analyzer.py) -/

/-- The detection result: Python's insertion-ordered
`Dict[str, List[GameObject]]` as an ordered association list. -/
def Detected : Type := List (String × List GameObject)

/-- Dictionary lookup `detected_objects.get(key, [])`. -/
def lookupD (d : Detected) (key : String) : List GameObject :=
  match d.find? (fun p => p.1 = key) with
  | some p => p.2
  | none => []

/-- The part of `GameRelationshipConfig` the base analyzer consumes:
reference levels in iteration order and the custom relationship rules. -/
structure RelConfig where
  reference_levels : List (String × Int)
  rules : List (Detected → List SpatialRelationship)

/-- Model of `BaseRelationshipAnalyzer._analyze_reference_level_relationship`:
allocates a virtual reference `GameObject(level_name, (0, level_y, 160, 1),
level_name)` and returns the `above{Name}`/`below{Name}` relationship. -/
def analyze_reference_level_relationship (player : GameObject)
    (level_name : String) (level_y : Int) (addr : Nat) :
    Option SpatialRelationship × Nat :=
  if above_reference_level player level_y then
    let ref_obj := mkGameObject level_name (0, level_y, 160, 1) (some level_name) none addr
    (some (mkRel player ref_obj ("above" ++ pyCapitalize level_name)), addr + 1)
  else
    let ref_obj := mkGameObject level_name (0, level_y, 160, 1) (some level_name) none addr
    (some (mkRel player ref_obj ("below" ++ pyCapitalize level_name)), addr + 1)

/-- Model of `BaseRelationshipAnalyzer._analyze_object_relationships`: horizontal
`leftOf`/`rightOf` branch, then vertical `aboveOf`/`belowOf` branch with the
`sameLevelAs` check in the final `else`. -/
def analyze_object_relationships (obj1 obj2 : GameObject) :
    List SpatialRelationship :=
  (if left_of obj1 obj2 then [mkRel obj1 obj2 "leftOf"]
   else if right_of obj1 obj2 then [mkRel obj1 obj2 "rightOf"]
   else []) ++
  (if above_of obj1 obj2 then [mkRel obj1 obj2 "aboveOf"]
   else if below_of obj1 obj2 then [mkRel obj1 obj2 "belowOf"]
   else if same_level_of obj1 obj2 then [mkRel obj1 obj2 "sameLevelAs"]
   else [])

/-- The reference-level loop of `analyze_all_relationships`, threading the
allocation counter; the `if ref_relationship:` truthiness test keeps any
returned relationship. -/
def analyzeRefLevels (player : GameObject) :
    List (String × Int) → Nat → List SpatialRelationship × Nat
  | [], addr => ([], addr)
  | (level_name, level_y) :: rest, addr =>
    let step := analyze_reference_level_relationship player level_name level_y addr
    let tail := analyzeRefLevels player rest step.2
    ((match step.1 with
      | some rel => [rel]
      | none => []) ++ tail.1, tail.2)

/-- The per-object loop of `analyze_all_relationships`: every type except
`'player'`, in dictionary order, each object in detection order. -/
def analyzeObjectsLoop (player : GameObject) : Detected → List SpatialRelationship
  | [] => []
  | (object_type, objects) :: rest =>
    (if object_type = "player" then []
     else objects.flatMap (fun obj => analyze_object_relationships player obj)) ++
      analyzeObjectsLoop player rest

/-- Model of `BaseRelationshipAnalyzer.analyze_all_relationships` with optional game
config: reference-level relationships, then object relationships, then
custom rules. -/
def analyze_all_relationships (game_config : Option RelConfig)
    (detected_objects : Detected) (addr : Nat) :
    List SpatialRelationship × Nat :=
  match lookupD detected_objects "player" with
  | [] => ([], addr)
  | player :: _ =>
    let refs := match game_config with
      | some cfg => analyzeRefLevels player cfg.reference_levels addr
      | none => ([], addr)
    let objRels := analyzeObjectsLoop player detected_objects
    let ruleRels := match game_config with
      | some cfg => cfg.rules.flatMap (fun rule => rule detected_objects)
      | none => []
    (refs.1 ++ objRels ++ ruleRels, refs.2)

/-- Model of `SeaquestRelationshipAnalyzer.analyze_all_relationships`
(src/env/seaquest/relationship_analyzer.py): water surface at
`WATER_SURFACE_Y = 47`, then only the relevant object types. -/
def seaquest_analyze_all_relationships (detected_objects : Detected)
    (addr : Nat) : List SpatialRelationship × Nat :=
  match lookupD detected_objects "player" with
  | [] => ([], addr)
  | player :: _ =>
    let refs := analyzeRefLevels player [("water_surface", 47)] addr
    let objRels :=
      ["enemy", "enemy_submarine", "enemy_missile", "diver"].flatMap
        (fun object_type =>
          (lookupD detected_objects object_type).flatMap
            (fun obj => analyze_object_relationships player obj))
    (refs.1 ++ objRels, refs.2)

/-- A connection dictionary from
`BaseRelationshipAnalyzer.create_connection_list` (distance squared, see
module comment). -/
structure Connection where
  obj1 : GameObject
  obj2 : GameObject
  relationships : List String
  distance_sq : Int
deriving DecidableEq

/-- The inner scan of `create_connection_list`: append the tag to the first
connection matching `(obj1, obj2)` (Python `==` is identity equality,
captured by structural equality on the embedded objects, whose `addr`
fields are allocated uniquely). -/
def appendToMatch (rel : SpatialRelationship) :
    List Connection → Option (List Connection)
  | [] => none
  | conn :: rest =>
    if conn.obj1 = rel.obj1 ∧ conn.obj2 = rel.obj2 then
      some ({ conn with relationships := conn.relationships ++ [rel.relationship_type] } :: rest)
    else
      match appendToMatch rel rest with
      | some rest2 => some (conn :: rest2)
      | none => none

/-- Reference-level skip test of `create_connection_list`:
`any(level in relationship.obj2.object_id.lower() for level in
['water', 'surface', 'ground', 'ceiling'])`. -/
def isReferenceId (object_id : String) : Bool :=
  ["water", "surface", "ground", "ceiling"].any
    (fun level => pyInStr level (pyLower object_id))

/-- Model of `BaseRelationshipAnalyzer.create_connection_list` as a left fold over
the relationship list. -/
def create_connection_list (relationships : List SpatialRelationship) :
    List Connection :=
  relationships.foldl
    (fun connection_list rel =>
      if isReferenceId rel.obj2.object_id then connection_list
      else
        match appendToMatch rel connection_list with
        | some updated => updated
        | none =>
          connection_list ++
            [{ obj1 := rel.obj1, obj2 := rel.obj2,
               relationships := [rel.relationship_type],
               distance_sq := rel.distance_sq }])
    []

/-! ## Object detection (src/core/object_detector.py and
src/env/seaquest/object_detector.py) -/

/-- A frame, embedded as the pure external region finder partially applied
to it: each query string names one `find_objects(image, colors, params)`
call site (the object type for the base detector; the special
colour/parameter combinations for the Seaquest composite passes). -/
def Image : Type := String → List Box

/-- The part of `GameConfig` the base detector consumes: the key set of
`object_colors` and the ordered `get_object_types()` list. -/
structure GameConfigModel where
  object_colors_keys : List String
  object_types : List String

/-- Model of `BaseObjectDetector.detect_objects_by_type`: unknown types yield `[]`;
otherwise each found box is passed to
`GameObject(object_type, coords, f'{object_type}_{i}')` — note the third
positional argument is `facing_side`, so the id string lands there and
`object_id` takes the `f"{object_type}_{id(self)}"` default. -/
def detect_objects_by_type (cfg : GameConfigModel) (image : Image)
    (object_type : String) (addr : Nat) : List GameObject × Nat :=
  if cfg.object_colors_keys.contains object_type then
    let coords_list := image object_type
    (coords_list.enum.map
      (fun ic =>
        mkGameObject object_type ic.2
          (some (object_type ++ "_" ++ toString ic.1)) none (addr + ic.1)),
     addr + coords_list.length)
  else ([], addr)

/-- The loop of `BaseObjectDetector.detect_all_objects` over
`get_object_types()`, threading the allocation counter. -/
def detectTypesLoop (cfg : GameConfigModel) (image : Image) :
    List String → Nat → Detected × Nat
  | [], addr => ([], addr)
  | object_type :: rest, addr =>
    let step := detect_objects_by_type cfg image object_type addr
    let tail := detectTypesLoop cfg image rest step.2
    ((object_type, step.1) :: tail.1, tail.2)

/-- Model of `BaseObjectDetector.detect_all_objects`. -/
def detect_all_objects (cfg : GameConfigModel) (image : Image) (addr : Nat) :
    Detected × Nat :=
  detectTypesLoop cfg image cfg.object_types addr

/-- Model of `BaseObjectDetector._objects_overlap` (strict inequalities). -/
def base_objects_overlap (obj1 obj2 : GameObject) : Bool :=
  obj1.left < obj2.right ∧ obj2.left < obj1.right ∧
    obj1.top < obj2.bottom ∧ obj2.top < obj1.bottom

/-- Model of `BaseObjectDetector.filter_overlapping_objects`: keep the objects of
`objects1` overlapping nothing in `objects2`. -/
def filter_overlapping_objects (objects1 objects2 : List GameObject) :
    List GameObject :=
  objects1.filter (fun obj1 => !(objects2.any (fun obj2 => base_objects_overlap obj1 obj2)))

/-- Model of `SeaquestObjectDetector._objects_overlap` (corner-containment test). -/
def seaquest_objects_overlap (obj1 obj2 : GameObject) : Bool :=
  obj1.left ≥ obj2.left ∧ obj1.left ≤ obj2.right ∧
    obj1.top ≥ obj2.top ∧ obj1.top ≤ obj2.bottom

/-- The key set of `OBJECT_COLORS` in src/env/seaquest/config.py. -/
def seaquestColorsKeys : List String :=
  ["player", "diver", "background_water", "player_score", "oxygen_bar",
   "lives", "logo", "player_missile", "oxygen_bar_depleted", "oxygen_logo",
   "collected_diver", "enemy_missile", "submarine"]

/-- The Seaquest `GameConfig` (`SeaquestGameConfig`). -/
def seaquestConfig : GameConfigModel :=
  { object_colors_keys := seaquestColorsKeys
    object_types :=
      ["player", "diver", "collected_diver", "player_missile",
       "enemy_missile", "lives", "enemy_submarine", "oxygen_bar",
       "oxygen_depleted", "enemy"] }

/-- Model of `SeaquestObjectDetector._detect_submarines`: an underwater pass and a
surface pass concatenated, the surface entries indexed from
`len(submarines)` onward. -/
def detect_submarines (image : Image) (addr : Nat) : List GameObject × Nat :=
  let underwater_coords := image "submarine"
  let subs1 := underwater_coords.enum.map
    (fun ic =>
      mkGameObject "enemy_submarine" ic.2
        (some ("enemy_submarine_" ++ toString ic.1)) none (addr + ic.1))
  let a1 := addr + underwater_coords.length
  let surface_coords := image "submarine_on_water"
  let subs2 := surface_coords.enum.map
    (fun ic =>
      mkGameObject "enemy_submarine" ic.2
        (some ("enemy_submarine_" ++ toString (subs1.length + ic.1))) none
        (a1 + ic.1))
  (subs1 ++ subs2, a1 + surface_coords.length)

/-- The final loop of `_detect_enemy_missiles`: each diver in the
6–8 × 4 size window appends a fresh `enemy_missile` object carrying the
diver's bounding box, indexed by the current list length. -/
def addSmallDivers (divers : List GameObject) (acc : List GameObject)
    (addr : Nat) : List GameObject × Nat :=
  match divers with
  | [] => (acc, addr)
  | diver :: rest =>
    if 6 ≤ diver.width ∧ diver.width ≤ 8 ∧ diver.height = 4 then
      addSmallDivers rest
        (acc ++ [mkGameObject "enemy_missile" diver.bounding_box
          (some ("enemy_missile_" ++ toString acc.length)) none addr])
        (addr + 1)
    else addSmallDivers rest acc addr

/-- Model of `SeaquestObjectDetector._detect_enemy_missiles`: detect, drop the
candidates whose top-left corner lies inside a diver box, then add the
diver-shaped small boxes. -/
def detect_enemy_missiles (image : Image) (divers : List GameObject)
    (addr : Nat) : List GameObject × Nat :=
  let coords_list := image "enemy_missile"
  let enemy_missiles := coords_list.enum.map
    (fun ic =>
      mkGameObject "enemy_missile" ic.2
        (some ("enemy_missile_" ++ toString ic.1)) none (addr + ic.1))
  let a1 := addr + coords_list.length
  let kept := enemy_missiles.filter
    (fun missile => !(divers.any (fun diver => seaquest_objects_overlap missile diver)))
  addSmallDivers divers kept a1

/-- Model of `SeaquestObjectDetector._detect_enemies`: the four colour passes
concatenated into one `enemy` list. -/
def detect_enemies (image : Image) (addr : Nat) : List GameObject × Nat :=
  let enemy_coords :=
    image "enemy_green" ++ image "enemy_lightgreen" ++ image "enemy_pink" ++
      image "enemy_orange_yellow"
  (enemy_coords.enum.map
    (fun ic =>
      mkGameObject "enemy" ic.2 (some ("enemy_" ++ toString ic.1)) none
        (addr + ic.1)),
   addr + enemy_coords.length)

/-- Model of `SeaquestObjectDetector.detect_all_objects`: the base passes in source
order, the composite submarine/missile/enemy passes, then the cleanup that
filters player missiles overlapping the player. -/
def seaquest_detect_all_objects (image : Image) (addr : Nat) :
    Detected × Nat :=
  let cfg := seaquestConfig
  let player := detect_objects_by_type cfg image "player" addr
  let diver := detect_objects_by_type cfg image "diver" player.2
  let collected := detect_objects_by_type cfg image "collected_diver" diver.2
  let pmissile := detect_objects_by_type cfg image "player_missile" collected.2
  let lives := detect_objects_by_type cfg image "lives" pmissile.2
  let oxygen := detect_objects_by_type cfg image "oxygen_bar" lives.2
  let oxdep := detect_objects_by_type cfg image "oxygen_depleted" oxygen.2
  let subs := detect_submarines image oxdep.2
  let emissile := detect_enemy_missiles image diver.1 subs.2
  let enemies := detect_enemies image emissile.2
  let cleaned_pmissile :=
    if player.1 ≠ [] ∧ pmissile.1 ≠ [] then
      filter_overlapping_objects pmissile.1 player.1
    else pmissile.1
  ([("player", player.1), ("diver", diver.1), ("collected_diver", collected.1),
    ("player_missile", cleaned_pmissile), ("lives", lives.1),
    ("oxygen_bar", oxygen.1), ("oxygen_depleted", oxdep.1),
    ("enemy_submarine", subs.1), ("enemy_missile", emissile.1),
    ("enemy", enemies.1)],
   enemies.2)

/-! ## Gaze log parsing (src/core/gaze_data_processor.py) -/

/-- Python whitespace stripped by `str.strip()`. -/
def isPySpace (c : Char) : Bool :=
  c = ' ' ∨ c = '\t' ∨ c = '\n' ∨ c = '\r' ∨ c = '\x0b' ∨ c = '\x0c'

/-- Model of `str.strip()` on a character list. -/
def pyStripChars (cs : List Char) : List Char :=
  ((cs.dropWhile isPySpace).reverse.dropWhile isPySpace).reverse

/-- Model of `str.split(sep)` for a one-character separator: splits at every
occurrence, keeping empty fields (`"".split(',') == ['']`). -/
def pySplit (sep : Char) : List Char → List (List Char)
  | [] => [[]]
  | c :: cs =>
    let r := pySplit sep cs
    if c = sep then [] :: r
    else
      match r with
      | h :: t => (c :: h) :: t
      | [] => [[c]]

/-- Model of `line.strip().split(',')`. -/
def splitCommaFields (line : String) : List String :=
  (pySplit ',' (pyStripChars line.toList)).map String.mk

/-- Numeric value of a digit list. -/
def natOfDigits (ds : List Char) : Nat :=
  ds.foldl (fun a c => 10 * a + (c.toNat - 48)) 0

/-- One unsigned decimal literal: `D+`, `D+.D*` or `.D+` consuming the
whole input. -/
def parseUnsignedFloat (cs : List Char) : Option ℚ :=
  let ip := cs.takeWhile Char.isDigit
  let rest := cs.dropWhile Char.isDigit
  match rest with
  | [] => if ip = [] then none else some ((natOfDigits ip : ℚ))
  | '.' :: rest2 =>
    let fp := rest2.takeWhile Char.isDigit
    let rest3 := rest2.dropWhile Char.isDigit
    if rest3 = [] ∧ (ip ≠ [] ∨ fp ≠ []) then
      some ((natOfDigits ip : ℚ) + (natOfDigits fp : ℚ) / ((10 : ℚ) ^ fp.length))
    else none
  | _ => none

/-- Model of the Python builtin `float(s)` for the plain decimal literals
the gaze logs contain: optional surrounding whitespace, optional sign,
digits with an optional fractional part.  (The builtin also accepts
exponents and `inf`/`nan`, which never occur in these logs; on its modelled
domain the model is exact, including truncation semantics downstream.) -/
def parseFloatQ (s : String) : Option ℚ :=
  match pyStripChars s.toList with
  | '+' :: rest => parseUnsignedFloat rest
  | '-' :: rest => (parseUnsignedFloat rest).map (fun q => -q)
  | cs => parseUnsignedFloat cs

/-- Model of the Python builtin `int(s)` for plain signed decimal
integers. -/
def parseIntZ (s : String) : Option Int :=
  match pyStripChars s.toList with
  | '+' :: rest =>
    if rest ≠ [] ∧ rest.all Char.isDigit then some ((natOfDigits rest : Int))
    else none
  | '-' :: rest =>
    if rest ≠ [] ∧ rest.all Char.isDigit then some (-(natOfDigits rest : Int))
    else none
  | cs =>
    if cs ≠ [] ∧ cs.all Char.isDigit then some ((natOfDigits cs : Int))
    else none

/-- Python `int(float_value)`: truncation toward zero. -/
def pyTrunc (q : ℚ) : Int :=
  if q < 0 then -(((-q).num.toNat / q.den : Nat) : Int)
  else ((q.num.toNat / q.den : Nat) : Int)

/-- The gaze-position comprehension `[float(pos) for pos in
gaze_positions]`: all fields must parse or the whole conversion fails. -/
def parseAllFloats : List String → Option (List ℚ)
  | [] => some []
  | s :: rest =>
    match parseFloatQ s, parseAllFloats rest with
    | some q, some qs => some (q :: qs)
    | _, _ => none

/-- Grouping `(int(l[i]), int(l[i+1])) for i in range(0, len(l), 2)`. -/
def toPairs : List Int → List (Int × Int)
  | x :: y :: rest => (x, y) :: toPairs rest
  | _ => []

/-- The parsed-line dictionary built by `_parse_gaze_line`. -/
structure GazeRecord where
  frameid : String
  episode_id : String
  score : String
  duration : ℚ
  unclipped_reward : ℚ
  action : Int
  gaze_positions : List (Int × Int)
  objects : String
  relationships : String
deriving DecidableEq

/-- Outcome of `_parse_gaze_line` on one line: a record, a silent skip
(`return None` with no message, the short-line branch), a skip with a
printed warning (odd coordinate count or unparseable coordinates), or an
uncaught exception propagating out of the parse (`float`/`int` failing on
the duration, reward or action fields — the surrounding `try` only covers
the gaze-position conversion). -/
inductive ParseResult where
  | ok (r : GazeRecord)
  | skipNoDiag
  | skipDiag
  | err
deriving DecidableEq

/-- Model of `GazeDataProcessor._parse_gaze_line`. -/
def parse_gaze_line (line : String) : ParseResult :=
  let parts := splitCommaFields line
  if parts.length ≤ 7 then .skipNoDiag
  else
    match parseFloatQ (parts.getD 3 "") with
    | none => .err
    | some duration =>
      match parseFloatQ (parts.getD 4 "") with
      | none => .err
      | some unclipped_reward =>
        match parseIntZ (parts.getD 5 "") with
        | none => .err
        | some action =>
          let gaze_parts := parts.drop 6
          if gaze_parts.length % 2 ≠ 0 then .skipDiag
          else
            match parseAllFloats gaze_parts with
            | none => .skipDiag
            | some qs =>
              .ok { frameid := parts.getD 0 ""
                    episode_id := parts.getD 1 ""
                    score := parts.getD 2 ""
                    duration := duration
                    unclipped_reward := unclipped_reward
                    action := action
                    gaze_positions := toPairs (qs.map pyTrunc)
                    objects := ""
                    relationships := "" }

/-- Returns `true` exactly when the parse produced a record. -/
def ParseResult.isRecord : ParseResult → Bool
  | .ok _ => true
  | _ => false

/-! ## Export (`GazeDataProcessor.save_updated_gaze_data`) -/

/-- The gaze table: column labels plus rows of cells, the shape pandas
builds from the list of parsed-line dictionaries. -/
structure DataFrame (α : Type) where
  header : List String
  rows : List (List α)

/-- Python `str.replace(pat, rep)` on character lists: every
non-overlapping occurrence, scanned left to right.  The `Nat` argument is
recursion fuel; called with fuel ≥ the list length (as `pyReplace` does)
it scans the whole input, since each step consumes at least one character
of a nonempty input (and an empty pattern never matches, as in the source,
whose pattern is always `".txt"`). -/
def replaceAllChars (pat rep : List Char) : Nat → List Char → List Char
  | 0, s => s
  | _ + 1, [] => []
  | fuel + 1, c :: cs =>
    if pat ≠ [] ∧ pat.isPrefixOf (c :: cs) then
      rep ++ replaceAllChars pat rep fuel ((c :: cs).drop pat.length)
    else
      c :: replaceAllChars pat rep fuel cs

/-- Python `str.replace(pat, rep)`. -/
def pyReplace (s pat rep : String) : String :=
  String.mk (replaceAllChars pat.toList rep.toList s.toList.length s.toList)

/-- Cell removal of `df.drop(columns=[name])` on one row: drop each cell
whose column label matches (pandas drops every matching label;
`errors='ignore'` makes the no-match case a no-op, which this recursion
already is). -/
def dropRowCells (name : String) : List String → List α → List α
  | _, [] => []
  | [], cells => cells
  | h :: hs, cell :: cells =>
    if h = name then dropRowCells name hs cells
    else cell :: dropRowCells name hs cells

/-- Header removal of `df.drop(columns=[name])`. -/
def dropHeader (name : String) : List String → List String
  | [] => []
  | h :: hs => if h = name then dropHeader name hs else h :: dropHeader name hs

/-- Model of `df.drop(columns=[name], errors='ignore')`. -/
def pandasDropColumn (name : String) (df : DataFrame α) : DataFrame α :=
  { header := dropHeader name df.header
    rows := df.rows.map (fun row => dropRowCells name df.header row) }

/-- Model of `GazeDataProcessor.save_updated_gaze_data`: returns the derived path
and the table written to it (header plus rows, `index=False`). -/
def save_updated_gaze_data (gaze_df : DataFrame α) (original_path : String) :
    String × DataFrame α :=
  (pyReplace original_path ".txt" "_with_relationships.txt",
   pandasDropColumn "gaze_positions" gaze_df)

/-! ## Theorems -/

/-- C6 spec-side coverage ratio, written from the claim's words:
`max(0, min(a.bottom,b.bottom) − max(a.top,b.top)) / b.height`, taken as 0
when `b.height = 0`. -/
def spec_coverage_ratio_c6 (a b : GameObject) : ℚ :=
  if b.height = 0 then 0
  else ((max 0 (min a.bottom b.bottom - max a.top b.top) : Int) : ℚ) / (b.height : ℚ)

/-- C6 spec-side predicate, written from the claim's words: coverage ratio
≥ 0.51 AND `b.top ≤ midpoint(a) ≤ b.bottom`, with `midpoint(a)` the
vertical center of `a`. -/
def spec_same_level_c6 (a b : GameObject) : Prop :=
  spec_coverage_ratio_c6 a b ≥ 51 / 100 ∧
    b.top ≤ (GameObject.center a).2 ∧ (GameObject.center a).2 ≤ b.bottom

/-- C6: for boxes with nonnegative width and height, `same_level_of(a,b)`
holds iff the coverage ratio is ≥ 0.51 and `a`'s vertical midpoint lies in
`[b.top, b.bottom]`, with the coverage ratio as the claim defines it. -/
theorem c6_same_level_iff (a b : GameObject)
    (haw : 0 ≤ a.width) (hah : 0 ≤ a.height)
    (hbw : 0 ≤ b.width) (hbh : 0 ≤ b.height) :
    same_level_of a b = true ↔ spec_same_level_c6 a b := by
  by_cases hb : b.height = 0
  · simp only [same_level_of, spec_same_level_c6, spec_coverage_ratio_c6,
      coverage_ratio, coverage, min_coverage, mid_y, GameObject.center, hb,
      decide_eq_true_eq, if_pos, if_neg]
    simp [hb]
    norm_num
  · have hbpos : 0 < b.height := lt_of_le_of_ne hbh (Ne.symm hb)
    simp only [same_level_of, spec_same_level_c6, spec_coverage_ratio_c6,
      coverage_ratio, coverage, min_coverage, mid_y, GameObject.center,
      decide_eq_true_eq, if_pos hbpos, if_neg hb]
    tauto

/-- C6 witness: the spec's Example 1 pair — player box (10,40,8,10), diver
box (30,45,8,8) — is at the same level in both formulations. -/
theorem c6_witness :
    spec_same_level_c6 (mkGameObject "player" (10, 40, 8, 10) none none 0)
      (mkGameObject "diver" (30, 45, 8, 8) none none 1) :=
  (c6_same_level_iff (mkGameObject "player" (10, 40, 8, 10) none none 0)
      (mkGameObject "diver" (30, 45, 8, 8) none none 1)
      (by decide) (by decide) (by decide) (by decide)).mp
    (by
      simp only [same_level_of, mid_y, coverage_ratio, coverage, min_coverage,
        mkGameObject, GameObject.top, GameObject.bottom, decide_eq_true_eq]
      norm_num
      decide)

/-- C7 counterexample: two zero-width boxes at the same x-coordinate (both
with width ≥ 0 and height ≥ 0) satisfy `left_of` and `right_of`
simultaneously, refuting the claim as stated. -/
theorem c7_counterexample :
    left_of (mkGameObject "a" (0, 0, 0, 0) none none 0)
        (mkGameObject "b" (0, 0, 0, 0) none none 1) = true ∧
      right_of (mkGameObject "a" (0, 0, 0, 0) none none 0)
        (mkGameObject "b" (0, 0, 0, 0) none none 1) = true ∧
      0 ≤ (mkGameObject "a" (0, 0, 0, 0) none none 0).width ∧
      0 ≤ (mkGameObject "a" (0, 0, 0, 0) none none 0).height ∧
      0 ≤ (mkGameObject "b" (0, 0, 0, 0) none none 1).width ∧
      0 ≤ (mkGameObject "b" (0, 0, 0, 0) none none 1).height := by
  decide

/-- C7 amended: `left_of` and `right_of` are mutually exclusive for all
pairs with nonnegative widths as soon as at least one of the two boxes has
positive width (degenerate pairs of zero-width boxes at the same x satisfy
both). -/
theorem c7_left_right_exclusive (a b : GameObject)
    (haw : 0 ≤ a.width) (hbw : 0 ≤ b.width) (hpos : 0 < a.width + b.width) :
    ¬(left_of a b = true ∧ right_of a b = true) := by
  simp only [left_of, right_of, GameObject.left, GameObject.right,
    decide_eq_true_eq]
  omega

/-- C7 witness: the amended exclusivity at the spec's Example 1 boxes. -/
theorem c7_witness :
    ¬(left_of (mkGameObject "player" (10, 40, 8, 10) none none 0)
          (mkGameObject "diver" (30, 45, 8, 8) none none 1) = true ∧
        right_of (mkGameObject "player" (10, 40, 8, 10) none none 0)
          (mkGameObject "diver" (30, 45, 8, 8) none none 1) = true) :=
  c7_left_right_exclusive _ _ (by decide) (by decide) (by decide)

/-- C3 counterexample input: a small box far up the side of a tall box.
Its midpoint (11) lies inside the tall box's span [0, 30], so neither
`above_of` nor `below_of` fires, but the coverage ratio 2/30 is far below
0.51. -/
def c3_obj1 : GameObject := mkGameObject "player" (0, 10, 2, 2) none none 0

/-- C3 counterexample partner box. -/
def c3_obj2 : GameObject := mkGameObject "enemy" (10, 0, 2, 30) none none 1

/-- C3 counterexample: a pair for which neither `above_of` nor `below_of`
holds and yet `_analyze_object_relationships` emits no sameLevel
relationship (only `leftOf`), refuting the unconditional-else reading of
the claim. -/
theorem c3_counterexample :
    above_of c3_obj1 c3_obj2 = false ∧ below_of c3_obj1 c3_obj2 = false ∧
      "sameLevelAs" ∉
        (analyze_object_relationships c3_obj1 c3_obj2).map
          (fun r => r.relationship_type) ∧
      (analyze_object_relationships c3_obj1 c3_obj2).map
          (fun r => r.relationship_type) = ["leftOf"] := by
  have habove : above_of c3_obj1 c3_obj2 = false := by
    simp only [above_of, mid_y, GameObject.top, c3_obj1, c3_obj2, mkGameObject,
      decide_eq_false_iff_not]
    norm_num
  have hbelow : below_of c3_obj1 c3_obj2 = false := by
    simp only [below_of, mid_y, GameObject.bottom, c3_obj1, c3_obj2, mkGameObject,
      decide_eq_false_iff_not]
    norm_num
  have hsame : same_level_of c3_obj1 c3_obj2 = false := by
    simp only [same_level_of, mid_y, coverage_ratio, coverage, min_coverage,
      GameObject.top, GameObject.bottom, c3_obj1, c3_obj2, mkGameObject,
      decide_eq_false_iff_not]
    norm_num
  have hleft : left_of c3_obj1 c3_obj2 = true := by decide
  have hlist : analyze_object_relationships c3_obj1 c3_obj2 =
      [mkRel c3_obj1 c3_obj2 "leftOf"] := by
    simp [analyze_object_relationships, hleft, habove, hbelow, hsame]
  refine ⟨habove, hbelow, ?_, ?_⟩ <;> simp [hlist, mkRel]

/-- C3 amended: `_analyze_object_relationships` evaluates `above_of` first
and `below_of` second, but when neither fires the pair is emitted as
`sameLevelAs` only when `same_level_of` (midpoint containment plus coverage
ratio ≥ 0.51) also holds; otherwise no vertical relationship is emitted.
Stated as a full characterization of the vertical tags. -/
theorem c3_vertical_emission (obj1 obj2 : GameObject) :
    ("aboveOf" ∈
        (analyze_object_relationships obj1 obj2).map
          (fun r => r.relationship_type) ↔
      above_of obj1 obj2 = true) ∧
    ("belowOf" ∈
        (analyze_object_relationships obj1 obj2).map
          (fun r => r.relationship_type) ↔
      (above_of obj1 obj2 = false ∧ below_of obj1 obj2 = true)) ∧
    ("sameLevelAs" ∈
        (analyze_object_relationships obj1 obj2).map
          (fun r => r.relationship_type) ↔
      (above_of obj1 obj2 = false ∧ below_of obj1 obj2 = false ∧
        same_level_of obj1 obj2 = true)) := by
  cases hl : left_of obj1 obj2 <;> cases hr : right_of obj1 obj2 <;>
    cases ha : above_of obj1 obj2 <;> cases hb : below_of obj1 obj2 <;>
    cases hs : same_level_of obj1 obj2 <;>
    simp [analyze_object_relationships, hl, hr, ha, hb, hs, mkRel]

/-- C5 counterexample: for a concrete player and the Seaquest water surface
at y = 47, the materialized virtual reference object has height 1 (its box
is `(0, 47, 160, 1)`), not the zero height the claim states. -/
theorem c5_counterexample :
    (analyze_reference_level_relationship
          (mkGameObject "player" (10, 40, 8, 10) none none 0) "water_surface"
          47 5).1.map (fun rel => rel.obj2.height) = some 1 ∧
      ¬((analyze_reference_level_relationship
            (mkGameObject "player" (10, 40, 8, 10) none none 0) "water_surface"
            47 5).1.map (fun rel => rel.obj2.height) = some 0) := by
  decide

/-- C5 amended: every configured reference level is materialized as a
one-pixel-tall (height 1), full-width (160) virtual object at the
reference y, and exactly one relationship is emitted for it — `above<Name>`
when the player's y-coordinate is strictly less than the reference y and
`below<Name>` otherwise, decided solely by that comparison. -/
theorem c5_reference_level_amended (player : GameObject) (level_name : String)
    (level_y : Int) (addr : Nat) :
    ∃ rel,
      analyze_reference_level_relationship player level_name level_y addr =
          (some rel, addr + 1) ∧
        rel.obj1 = player ∧
        rel.obj2.bounding_box = (0, level_y, 160, 1) ∧
        rel.obj2.object_type = level_name ∧
        rel.relationship_type =
          (if player.y < level_y then "above" else "below") ++
            pyCapitalize level_name := by
  by_cases h : player.y < level_y
  · exact ⟨mkRel player
        (mkGameObject level_name (0, level_y, 160, 1) (some level_name) none addr)
        ("above" ++ pyCapitalize level_name),
      by simp [analyze_reference_level_relationship, above_reference_level, h],
      rfl, rfl, rfl, by simp [mkRel, h]⟩
  · exact ⟨mkRel player
        (mkGameObject level_name (0, level_y, 160, 1) (some level_name) none addr)
        ("below" ++ pyCapitalize level_name),
      by simp [analyze_reference_level_relationship, above_reference_level, h],
      rfl, rfl, rfl, by simp [mkRel, h]⟩

/-! ### C1/C2 concrete frame: one player region (10,40,8,10) and one diver
region (30,45,8,8), the spec's Example 1 geometry. -/

/-- The C1/C2 frame: the region finder returns one player box and one diver
box. -/
def c1_image : Image := fun t =>
  if t = "player" then [((10 : Int), 40, 8, 10)]
  else if t = "diver" then [((30 : Int), 45, 8, 8)]
  else []

/-- A two-type game configuration for the C1/C2 frame. -/
def c1_config : GameConfigModel :=
  { object_colors_keys := ["player", "diver"]
    object_types := ["player", "diver"] }

/-- A relationship configuration with the Seaquest water surface and no
custom rules. -/
def c1_rel_config : RelConfig :=
  { reference_levels := [("water_surface", 47)], rules := [] }

/-- The player object the detector builds on the C1 frame when its
allocation address is `a`: the id string `"player_0"` lands in
`facing_side` and `object_id` is `"player_" ++ a`. -/
def c1P (a : Nat) : GameObject :=
  mkGameObject "player" (10, 40, 8, 10) (some "player_0") none a

/-- The diver object the detector builds on the C1 frame at address `a`. -/
def c1D (a : Nat) : GameObject :=
  mkGameObject "diver" (30, 45, 8, 8) (some "diver_0") none a

/-- One classification + relationship-inference pass over a frame:
`detect_all_objects`, then `analyze_all_relationships`, then
`create_connection_list`, threading the allocation counter. -/
def classify_and_relate (image : Image) (cfg : GameConfigModel)
    (rcfg : RelConfig) (addr : Nat) : List Connection × Nat :=
  let detected := detect_all_objects cfg image addr
  let rels := analyze_all_relationships (some rcfg) detected.1 detected.2
  (create_connection_list rels.1, rels.2)

/-- C1: two invocations of the classification + relationship pipeline on
the same frame yield connection lists with identical relationship tags in
identical order, but NOT identical connection lists: the `object_id`
fields differ across the runs, because the detector's id string is passed
into the `facing_side` parameter and `object_id` falls back to the
`f"{object_type}_{id(self)}"` default, which embeds the per-instance
allocation address. -/
theorem c1_connection_lists_not_identical :
    ((classify_and_relate c1_image c1_config c1_rel_config 0).1.map
        (fun c => c.relationships) =
      (classify_and_relate c1_image c1_config c1_rel_config
          ((classify_and_relate c1_image c1_config c1_rel_config 0).2)).1.map
        (fun c => c.relationships)) ∧
    ((classify_and_relate c1_image c1_config c1_rel_config 0).1.map
        (fun c => (c.obj1.object_id, c.obj2.object_id)) =
      [("player_0", "diver_1")]) ∧
    ((classify_and_relate c1_image c1_config c1_rel_config
          ((classify_and_relate c1_image c1_config c1_rel_config 0).2)).1.map
        (fun c => (c.obj1.object_id, c.obj2.object_id)) =
      [("player_3", "diver_4")]) ∧
    (classify_and_relate c1_image c1_config c1_rel_config 0).1 ≠
      (classify_and_relate c1_image c1_config c1_rel_config
          ((classify_and_relate c1_image c1_config c1_rel_config 0).2)).1 := by
  have hobj : ∀ a b : Nat, analyze_object_relationships (c1P a) (c1D b) =
      [mkRel (c1P a) (c1D b) "leftOf", mkRel (c1P a) (c1D b) "sameLevelAs"] := by
    intro a b
    have hfdiv : Int.fdiv 10 2 = 5 := by decide
    have hl : left_of (c1P a) (c1D b) = true := by
      simp [left_of, c1P, c1D, mkGameObject, GameObject.right, GameObject.left]
    have hr : above_of (c1P a) (c1D b) = false := by
      simp only [above_of, mid_y, GameObject.top, c1P, c1D, mkGameObject,
        decide_eq_false_iff_not, hfdiv]
      norm_num
    have hb : below_of (c1P a) (c1D b) = false := by
      simp only [below_of, mid_y, GameObject.bottom, c1P, c1D, mkGameObject,
        decide_eq_false_iff_not, hfdiv]
      norm_num
    have hs : same_level_of (c1P a) (c1D b) = true := by
      simp only [same_level_of, mid_y, coverage_ratio, coverage, min_coverage,
        GameObject.top, GameObject.bottom, c1P, c1D, mkGameObject,
        decide_eq_true_eq, hfdiv]
      norm_num
    simp [analyze_object_relationships, hl, hr, hb, hs]
  have hrun : ∀ a : Nat, classify_and_relate c1_image c1_config c1_rel_config a =
      (create_connection_list
        ((analyzeRefLevels (c1P a) [("water_surface", 47)] (a + 2)).1 ++
          (((analyze_object_relationships (c1P a) (c1D (a + 1)) ++ []) ++ []) ++ [])),
       (analyzeRefLevels (c1P a) [("water_surface", 47)] (a + 2)).2) :=
    fun a => rfl
  have hrun0 : classify_and_relate c1_image c1_config c1_rel_config 0 =
      ([{ obj1 := c1P 0, obj2 := c1D 1,
          relationships := ["leftOf", "sameLevelAs"], distance_sq := 416 }], 3) := by
    rw [hrun 0, hobj 0 (0 + 1)]
    decide
  have hrun3 : classify_and_relate c1_image c1_config c1_rel_config 3 =
      ([{ obj1 := c1P 3, obj2 := c1D 4,
          relationships := ["leftOf", "sameLevelAs"], distance_sq := 416 }], 6) := by
    rw [hrun 3, hobj 3 (3 + 1)]
    decide
  have h2 : (classify_and_relate c1_image c1_config c1_rel_config 0).2 = 3 := by
    rw [hrun0]
  rw [h2, hrun0, hrun3]
  refine ⟨rfl, by decide, by decide, by decide⟩

/-- C2: on the C1/C2 frame the diver produced by `detect_all_objects` does
NOT carry the type-plus-positional-index id `"diver_0"`: that string ends
up in `facing_side`, while `object_id` is `"diver_1"` — the type plus the
allocation address of the instance (the player was allocated first). -/
theorem c2_object_id_is_address_not_index :
    ((lookupD (detect_all_objects c1_config c1_image 0).1 "diver").map
        (fun o => o.object_id) = ["diver_1"]) ∧
    ¬((lookupD (detect_all_objects c1_config c1_image 0).1 "diver").map
        (fun o => o.object_id) = ["diver_0"]) ∧
    ((lookupD (detect_all_objects c1_config c1_image 0).1 "diver").map
        (fun o => o.facing_side) = [some "diver_0"]) := by
  decide

/-- The constructed object carries exactly the bounding box it was given. -/
theorem mkGameObject_bounding_box (t : String) (bb : Box) (f : Option String)
    (i : Option String) (a : Nat) : (mkGameObject t bb f i a).bounding_box = bb :=
  rfl

/-- Objects already accumulated survive the small-diver append loop. -/
theorem addSmallDivers_acc_mem (divers : List GameObject) :
    ∀ (acc : List GameObject) (addr : Nat) (x : GameObject), x ∈ acc →
      x ∈ (addSmallDivers divers acc addr).1 := by
  induction divers with
  | nil => intro acc addr x hx; simpa [addSmallDivers] using hx
  | cons d rest ih =>
    intro acc addr x hx
    by_cases hd : 6 ≤ d.width ∧ d.width ≤ 8 ∧ d.height = 4
    · simp only [addSmallDivers, if_pos hd]
      exact ih _ _ _ (List.mem_append_left _ hx)
    · simp only [addSmallDivers, if_neg hd]
      exact ih _ _ _ hx

/-- Every diver in the 6–8 × 4 window contributes its bounding box to the
output of the small-diver append loop. -/
theorem addSmallDivers_box_mem (d : GameObject) :
    ∀ (divers acc : List GameObject) (addr : Nat), d ∈ divers →
      6 ≤ d.width → d.width ≤ 8 → d.height = 4 →
      d.bounding_box ∈
        (addSmallDivers divers acc addr).1.map GameObject.bounding_box := by
  intro divers
  induction divers with
  | nil => intro acc addr h; simp at h
  | cons a rest ih =>
    intro acc addr hmem h1 h2 h3
    rcases List.mem_cons.mp hmem with rfl | hmem'
    · have hd : 6 ≤ d.width ∧ d.width ≤ 8 ∧ d.height = 4 := ⟨h1, h2, h3⟩
      simp only [addSmallDivers, if_pos hd]
      refine List.mem_map.mpr
        ⟨mkGameObject "enemy_missile" d.bounding_box
            (some ("enemy_missile_" ++ toString acc.length)) none addr,
          addSmallDivers_acc_mem rest _ _ _ (by simp), rfl⟩
    · by_cases hd : 6 ≤ a.width ∧ a.width ≤ 8 ∧ a.height = 4
      · simp only [addSmallDivers, if_pos hd]
        exact ih _ _ hmem' h1 h2 h3
      · simp only [addSmallDivers, if_neg hd]
        exact ih _ _ hmem' h1 h2 h3

/-- C4 counterexample frame: one diver-coloured region of width 7 and
height 4. -/
def c4_image : Image := fun t =>
  if t = "diver" then [((30 : Int), 45, 7, 4)] else []

/-- C4 counterexample: after Seaquest classification of a frame with a
diver candidate box (30,45,7,4), that box is still PRESENT in the returned
diver list (the claim says it is absent) — and it also appears in the
enemy-missile list, i.e. it is copied, not moved. -/
theorem c4_counterexample :
    ((30 : Int), (45 : Int), (7 : Int), (4 : Int)) ∈
        (lookupD (seaquest_detect_all_objects c4_image 0).1 "diver").map
          GameObject.bounding_box ∧
      ((30 : Int), (45 : Int), (7 : Int), (4 : Int)) ∈
        (lookupD (seaquest_detect_all_objects c4_image 0).1 "enemy_missile").map
          GameObject.bounding_box := by
  decide

/-- C4 amended: every diver candidate of the classification result whose
width is between 6 and 8 and whose height is exactly 4 has its bounding
box ALSO present in the enemy-missile list — it is duplicated there as a
new enemy-missile object while remaining in the diver list. -/
theorem c4_small_divers_copied (image : Image) (addr : Nat) (d : GameObject)
    (hmem : d ∈ lookupD (seaquest_detect_all_objects image addr).1 "diver")
    (h1 : 6 ≤ d.width) (h2 : d.width ≤ 8) (h3 : d.height = 4) :
    d.bounding_box ∈
      (lookupD (seaquest_detect_all_objects image addr).1 "enemy_missile").map
        GameObject.bounding_box := by
  simp only [seaquest_detect_all_objects, lookupD, List.find?] at hmem ⊢
  simp only [detect_enemy_missiles]
  exact addSmallDivers_box_mem d _ _ _ hmem h1 h2 h3

/-- C4 witness: the amended statement applied to the counterexample frame,
whose detected diver is the (30,45,7,4) object. -/
theorem c4_witness :
    (mkGameObject "diver" (30, 45, 7, 4) (some "diver_0") none 0).bounding_box ∈
      (lookupD (seaquest_detect_all_objects c4_image 0).1 "enemy_missile").map
        GameObject.bounding_box :=
  c4_small_divers_copied c4_image 0
    (mkGameObject "diver" (30, 45, 7, 4) (some "diver_0") none 0)
    (by decide) (by decide) (by decide) (by decide)

/-- Every relationship emitted for a pair has the first argument as
`obj1`. -/
theorem analyze_object_relationships_obj1 (a b : GameObject) :
    ∀ r ∈ analyze_object_relationships a b, r.obj1 = a := by
  intro r hr
  unfold analyze_object_relationships at hr
  rcases List.mem_append.mp hr with h | h <;> split_ifs at h <;>
    simp only [List.mem_singleton, List.not_mem_nil] at h <;>
    subst h <;> rfl

/-- Every reference-level relationship has the player as `obj1`. -/
theorem analyzeRefLevels_obj1 (player : GameObject) :
    ∀ (levels : List (String × Int)) (addr : Nat) (r : SpatialRelationship),
      r ∈ (analyzeRefLevels player levels addr).1 → r.obj1 = player := by
  intro levels
  induction levels with
  | nil => intro addr r hr; simp [analyzeRefLevels] at hr
  | cons l rest ih =>
    intro addr r hr
    obtain ⟨name, y⟩ := l
    cases hab : above_reference_level player y <;>
      simp only [analyzeRefLevels, analyze_reference_level_relationship, hab,
        Bool.false_eq_true, if_false, if_true, List.singleton_append,
        List.mem_cons] at hr <;>
      rcases hr with rfl | hr <;>
      first
        | rfl
        | exact ih _ r hr

/-- Every relationship emitted by the per-object loop has the player as
`obj1`. -/
theorem analyzeObjectsLoop_obj1 (player : GameObject) :
    ∀ (det : List (String × List GameObject)) (r : SpatialRelationship),
      r ∈ analyzeObjectsLoop player det → r.obj1 = player := by
  intro det
  induction det with
  | nil => intro r hr; simp [analyzeObjectsLoop] at hr
  | cons e rest ih =>
    intro r hr
    obtain ⟨t, objs⟩ := e
    simp only [analyzeObjectsLoop] at hr
    rcases List.mem_append.mp hr with h | h
    · split_ifs at h
      · simp at h
      · rcases List.mem_flatMap.mp h with ⟨obj, _, hro⟩
        exact analyze_object_relationships_obj1 player obj r hro
    · exact ih r h

/-- C10: with no custom rules, every relationship emitted by the base
`analyze_all_relationships` — and every relationship emitted by the
Seaquest `analyze_all_relationships` — has the FIRST detected player as
`obj1`; in particular additional players generate no relationships and no
relationship relates two non-player objects. -/
theorem c10_relationships_anchored_to_first_player :
    (∀ (game_config : Option RelConfig)
       (detected : List (String × List GameObject)) (addr : Nat)
       (player : GameObject) (rest : List GameObject),
       (∀ cfg, game_config = some cfg → cfg.rules = []) →
       lookupD detected "player" = player :: rest →
       ∀ r ∈ (analyze_all_relationships game_config detected addr).1,
         r.obj1 = player) ∧
    (∀ (detected : List (String × List GameObject)) (addr : Nat)
       (player : GameObject) (rest : List GameObject),
       lookupD detected "player" = player :: rest →
       ∀ r ∈ (seaquest_analyze_all_relationships detected addr).1,
         r.obj1 = player) := by
  constructor
  · intro game_config detected addr player rest hrules hlookup r hr
    simp only [analyze_all_relationships, hlookup] at hr
    rcases List.mem_append.mp hr with h | h
    · rcases List.mem_append.mp h with h2 | h2
      · cases game_config with
        | none => simp at h2
        | some cfg =>
          exact analyzeRefLevels_obj1 player cfg.reference_levels addr r h2
      · exact analyzeObjectsLoop_obj1 player detected r h2
    · cases game_config with
      | none => simp at h
      | some cfg =>
        have h2 : r ∈ cfg.rules.flatMap (fun rule => rule detected) := h
        rw [hrules cfg rfl] at h2
        simp at h2
  · intro detected addr player rest hlookup r hr
    simp only [seaquest_analyze_all_relationships, hlookup] at hr
    rcases List.mem_append.mp hr with h | h
    · exact analyzeRefLevels_obj1 player [("water_surface", 47)] addr r h
    · rcases List.mem_flatMap.mp h with ⟨t, _, h2⟩
      rcases List.mem_flatMap.mp h2 with ⟨obj, _, hro⟩
      exact analyze_object_relationships_obj1 player obj r hro

/-- C10 witness detection result: a single player. -/
def c10_det : List (String × List GameObject) :=
  [("player", [mkGameObject "player" (10, 40, 8, 10) none none 0])]

/-- C10 witness configuration: the water surface, no rules. -/
def c10_cfg : RelConfig := { reference_levels := [("water_surface", 47)], rules := [] }

/-- C10 witness: the water-surface relationship emitted on the concrete
single-player frame has the first player as `obj1`. -/
theorem c10_witness :
    (mkRel (mkGameObject "player" (10, 40, 8, 10) none none 0)
        (mkGameObject "water_surface" (0, 47, 160, 1) (some "water_surface") none 5)
        "aboveWater_surface").obj1 =
      mkGameObject "player" (10, 40, 8, 10) none none 0 :=
  c10_relationships_anchored_to_first_player.1 (some c10_cfg) c10_det 5
    (mkGameObject "player" (10, 40, 8, 10) none none 0) []
    (fun cfg h => by cases h; rfl) (by decide) _ (by decide)

/-- The function `dropHeader` is a label filter. -/
theorem dropHeader_eq_filter (name : String) :
    ∀ hs : List String, dropHeader name hs = hs.filter (fun h => !(h == name)) := by
  intro hs
  induction hs with
  | nil => rfl
  | cons h t ih =>
    by_cases hd : h = name <;> simp [dropHeader, List.filter_cons, hd, ih]

/-- On an aligned row, `dropRowCells` keeps exactly the cells of the
columns whose label differs from `name`, in order. -/
theorem dropRowCells_eq_filter {α : Type} (name : String) :
    ∀ (hs : List String) (r : List α), r.length = hs.length →
      dropRowCells name hs r =
        ((hs.zip r).filter (fun p => !(p.1 == name))).map Prod.snd := by
  intro hs
  induction hs with
  | nil =>
    intro r hr
    have : r = [] := List.length_eq_zero.mp hr
    subst this
    rfl
  | cons h t ih =>
    intro r hr
    cases r with
    | nil => simp at hr
    | cons c cs =>
      by_cases hd : h = name <;>
        simp [dropRowCells, List.zip_cons_cons, List.filter_cons, hd,
          ih cs (by simpa using hr)]

/-- C9: `save_updated_gaze_data` returns the path obtained from the input
path by replacing `".txt"` with `"_with_relationships.txt"`, and writes the
table's rows in their original order with the `gaze_positions` column
removed and every other column's cells unchanged. -/
theorem c9_export_drops_gaze_column {α : Type} (df : DataFrame α) (path : String)
    (halign : ∀ r ∈ df.rows, r.length = df.header.length) :
    (save_updated_gaze_data df path).1 =
        pyReplace path ".txt" "_with_relationships.txt" ∧
      (save_updated_gaze_data df path).2.header =
        df.header.filter (fun h => !(h == "gaze_positions")) ∧
      (save_updated_gaze_data df path).2.rows =
        df.rows.map (fun r =>
          ((df.header.zip r).filter
            (fun p => !(p.1 == "gaze_positions"))).map Prod.snd) := by
  refine ⟨rfl, dropHeader_eq_filter _ _, ?_⟩
  show df.rows.map (fun row => dropRowCells "gaze_positions" df.header row) = _
  exact List.map_congr_left
    (fun r hr => dropRowCells_eq_filter _ _ _ (halign r hr))

/-- C9 witness table: three columns, two rows. -/
def c9_df : DataFrame String :=
  { header := ["frameid", "gaze_positions", "objects"]
    rows := [["f1", "(5, 6)", "player_0 , "], ["f2", "(7, 8)", ""]] }

/-- C9 witness: exporting the concrete table to `"game.txt"` yields the
`_with_relationships` path and both rows, in order, without the
gaze-positions cells. -/
theorem c9_witness :
    (save_updated_gaze_data c9_df "game.txt").1 = "game_with_relationships.txt" ∧
      (save_updated_gaze_data c9_df "game.txt").2.header = ["frameid", "objects"] ∧
      (save_updated_gaze_data c9_df "game.txt").2.rows =
        [["f1", "player_0 , "], ["f2", ""]] := by
  have h := c9_export_drops_gaze_column c9_df "game.txt" (by decide)
  exact ⟨h.1.trans (by decide), h.2.1.trans (by decide), h.2.2.trans (by decide)⟩

/-- C8 counterexamples.  Line 1 (`xx` in the duration field) satisfies the
claim's stated production condition — more than 7 fields, an even count of
trailing coordinate fields, all of them parsing as floats — yet produces no
record: the uncaught `float('xx')` failure propagates (`err`) instead of a
skip-with-diagnostic.  Line 2 (`a,b`) is rejected with NO diagnostic
(silent short-line skip), against the claim's "emits a diagnostic". -/
theorem c8_counterexample :
    (7 < (splitCommaFields "f1,e1,10,xx,1.0,3,5,6,7,8").length ∧
      ((splitCommaFields "f1,e1,10,xx,1.0,3,5,6,7,8").drop 6).length % 2 = 0 ∧
      (parseAllFloats
        ((splitCommaFields "f1,e1,10,xx,1.0,3,5,6,7,8").drop 6)).isSome = true) ∧
    (parse_gaze_line "f1,e1,10,xx,1.0,3,5,6,7,8").isRecord = false ∧
    parse_gaze_line "f1,e1,10,xx,1.0,3,5,6,7,8" = ParseResult.err ∧
    (parse_gaze_line "a,b").isRecord = false ∧
    parse_gaze_line "a,b" = ParseResult.skipNoDiag := by
  decide

/-- C8 amended: a record is produced iff the line has more than 7 fields,
its duration and reward fields parse as floats, its action field parses as
an int, and the trailing coordinate fields are even in count and all parse
as floats; coordinate trouble skips the line with a diagnostic, short lines
are skipped silently, and duration/reward/action parse failures propagate
as an error.  A produced record carries the truncated, paired
coordinates. -/
theorem c8_parse_characterization (line : String) :
    (parse_gaze_line line = ParseResult.skipNoDiag ↔
      (splitCommaFields line).length ≤ 7) ∧
    (parse_gaze_line line = ParseResult.err ↔
      (7 < (splitCommaFields line).length ∧
        (parseFloatQ ((splitCommaFields line).getD 3 "") = none ∨
         parseFloatQ ((splitCommaFields line).getD 4 "") = none ∨
         parseIntZ ((splitCommaFields line).getD 5 "") = none))) ∧
    (parse_gaze_line line = ParseResult.skipDiag ↔
      (7 < (splitCommaFields line).length ∧
        (parseFloatQ ((splitCommaFields line).getD 3 "")).isSome = true ∧
        (parseFloatQ ((splitCommaFields line).getD 4 "")).isSome = true ∧
        (parseIntZ ((splitCommaFields line).getD 5 "")).isSome = true ∧
        (¬((splitCommaFields line).drop 6).length % 2 = 0 ∨
         parseAllFloats ((splitCommaFields line).drop 6) = none))) ∧
    ((parse_gaze_line line).isRecord = true ↔
      (7 < (splitCommaFields line).length ∧
        (parseFloatQ ((splitCommaFields line).getD 3 "")).isSome = true ∧
        (parseFloatQ ((splitCommaFields line).getD 4 "")).isSome = true ∧
        (parseIntZ ((splitCommaFields line).getD 5 "")).isSome = true ∧
        ((splitCommaFields line).drop 6).length % 2 = 0 ∧
        (parseAllFloats ((splitCommaFields line).drop 6)).isSome = true)) ∧
    ((parse_gaze_line line).isRecord = true →
      parse_gaze_line line = ParseResult.ok
        { frameid := (splitCommaFields line).getD 0 ""
          episode_id := (splitCommaFields line).getD 1 ""
          score := (splitCommaFields line).getD 2 ""
          duration := (parseFloatQ ((splitCommaFields line).getD 3 "")).getD 0
          unclipped_reward := (parseFloatQ ((splitCommaFields line).getD 4 "")).getD 0
          action := (parseIntZ ((splitCommaFields line).getD 5 "")).getD 0
          gaze_positions :=
            toPairs (((parseAllFloats ((splitCommaFields line).drop 6)).getD []).map pyTrunc)
          objects := ""
          relationships := "" }) := by
  by_cases hlen : (splitCommaFields line).length ≤ 7
  · have h7 : ¬7 < (splitCommaFields line).length := not_lt.mpr hlen
    simp only [parse_gaze_line, if_pos hlen]
    simp [h7, hlen, ParseResult.isRecord]
  · have h7 : 7 < (splitCommaFields line).length := not_le.mp hlen
    cases h3 : parseFloatQ ((splitCommaFields line).getD 3 "") with
    | none =>
      simp only [parse_gaze_line, if_neg hlen, h3]
      simp [hlen, h7, ParseResult.isRecord]
    | some d3 =>
      cases h4 : parseFloatQ ((splitCommaFields line).getD 4 "") with
      | none =>
        simp only [parse_gaze_line, if_neg hlen, h3, h4]
        simp [hlen, h7, ParseResult.isRecord]
      | some d4 =>
        cases h5 : parseIntZ ((splitCommaFields line).getD 5 "") with
        | none =>
          simp only [parse_gaze_line, if_neg hlen, h3, h4, h5]
          simp [hlen, h7, ParseResult.isRecord]
        | some a5 =>
          by_cases hodd : ((splitCommaFields line).drop 6).length % 2 = 0
          · cases hg : parseAllFloats ((splitCommaFields line).drop 6) with
            | none =>
              simp only [parse_gaze_line, if_neg hlen, h3, h4, h5, hodd, hg]
              simp [hlen, h7, hodd, hg, ParseResult.isRecord]
            | some qs =>
              simp only [parse_gaze_line, if_neg hlen, h3, h4, h5, hodd, hg]
              simp [hlen, h7, hodd, hg, ParseResult.isRecord]
          · have hodd2 : ((splitCommaFields line).length - 6) % 2 = 1 := by
              have h := hodd
              simp only [List.length_drop] at h
              omega
            simp only [parse_gaze_line, if_neg hlen, h3, h4, h5]
            simp [hlen, h7, hodd2, ParseResult.isRecord]

/-- Evaluation of the modelled `float("0.5")`. -/
theorem parseFloatQ_half : parseFloatQ "0.5" = some ((1 : ℚ) / 2) := by
  show some ((natOfDigits ['0'] : ℚ) +
      (natOfDigits ['5'] : ℚ) / ((10 : ℚ) ^ (['5'] : List Char).length)) =
    some ((1 : ℚ) / 2)
  norm_num [(by decide : natOfDigits ['0'] = 0), (by decide : natOfDigits ['5'] = 5)]

/-- Evaluation of the modelled `float("1.0")`. -/
theorem parseFloatQ_one : parseFloatQ "1.0" = some (1 : ℚ) := by
  show some ((natOfDigits ['1'] : ℚ) +
      (natOfDigits ['0'] : ℚ) / ((10 : ℚ) ^ (['0'] : List Char).length)) =
    some (1 : ℚ)
  norm_num [(by decide : natOfDigits ['1'] = 1), (by decide : natOfDigits ['0'] = 0)]

/-- C8 witness: the spec's Example 2 line parses to a record with
`frameid = "f1"`, `action = 3` and `gaze_positions = [(5,6),(7,8)]`. -/
theorem c8_witness :
    parse_gaze_line "f1,e1,10,0.5,1.0,3,5,6,7,8" = ParseResult.ok
      { frameid := "f1", episode_id := "e1", score := "10",
        duration := (1 : ℚ) / 2, unclipped_reward := 1, action := 3,
        gaze_positions := [(5, 6), (7, 8)], objects := "",
        relationships := "" } := by
  have hget3 : (splitCommaFields "f1,e1,10,0.5,1.0,3,5,6,7,8").getD 3 "" = "0.5" := by
    decide
  have hget4 : (splitCommaFields "f1,e1,10,0.5,1.0,3,5,6,7,8").getD 4 "" = "1.0" := by
    decide
  have hgall : parseAllFloats
      ((splitCommaFields "f1,e1,10,0.5,1.0,3,5,6,7,8").drop 6) =
      some [((5 : ℕ) : ℚ), ((6 : ℕ) : ℚ), ((7 : ℕ) : ℚ), ((8 : ℕ) : ℚ)] := by
    decide
  have hrec : (parse_gaze_line "f1,e1,10,0.5,1.0,3,5,6,7,8").isRecord = true := by
    refine ((c8_parse_characterization "f1,e1,10,0.5,1.0,3,5,6,7,8").2.2.2.1).mpr
      ⟨by decide, ?_, ?_, by decide, by decide, ?_⟩
    · rw [hget3, parseFloatQ_half]; rfl
    · rw [hget4, parseFloatQ_one]; rfl
    · rw [hgall]; rfl
  refine (((c8_parse_characterization "f1,e1,10,0.5,1.0,3,5,6,7,8").2.2.2.2) hrec).trans ?_
  rw [hget3, hget4, parseFloatQ_half, parseFloatQ_one, hgall]
  simp only [Option.getD_some]
  norm_num
  decide
